import Mathlib

/-!
Verification of the caching and watchlist core of the crypto-tracker API
(`src/routes/crypto.js`), as a shallow embedding.

Modelling conventions, faithful to the JavaScript source:

* The upstream payload (`response.data`, an opaque JSON value) is a type
  parameter `P`.
* `Date.now()` is injected as a `Nat` argument; the handler reads the clock
  twice (once for the freshness check, once when storing), so two time
  arguments `now` / `now2` are passed.  The freshness comparison
  `now - cachedAt < 30000` is computed over `Int`, matching JS number
  subtraction (which can go negative).
* The single upstream HTTP call of a handler invocation is injected as an
  `Upstream P` value (`ok payload` or `fail`, where `fail` stands for a
  thrown/rejected axios call).  The `upstreamCalls` field of a result counts
  how many times the handler consulted that injected call.
* Persistence (`User.findById`, `user.save()`) is injected likewise:
  `Option (List WatchlistItem)` for a read (`none` = the read throws) and a
  `Bool` for whether `save()` succeeds.
* The module-level `watchlistCache` object is an association list keyed by
  the comma-joined id string; assignment prepends (lookup returns the most
  recent binding, matching JS property assignment observationally).
-/

/-! ## Data model -/

/-- One item of a user's watchlist: `{ coinId, coinName }`. -/
structure WatchlistItem where
  coinId : String
  coinName : String
deriving DecidableEq, Repr

/-- A cache entry `{ data, cachedAt }` as stored in `watchlistCache[key]`. -/
structure CacheEntry (P : Type) where
  data : P
  cachedAt : Nat
deriving DecidableEq, Repr

/-- The module-level `topCache = { data: null | payload, cachedAt }`. -/
structure TopCache (P : Type) where
  data : Option P
  cachedAt : Nat
deriving DecidableEq, Repr

/-- The module-level `watchlistCache` object, keyed by the joined id string. -/
abbrev WCache (P : Type) := List (String × CacheEntry P)

/-- Outcome of the one axios call a handler invocation may make. -/
inductive Upstream (P : Type) where
  | ok (payload : P)
  | fail
deriving DecidableEq, Repr

/-- Property lookup `watchlistCache[key]`. -/
def lookupCache {P : Type} (key : String) : WCache P → Option (CacheEntry P)
  | [] => none
  | (k, e) :: rest => if key = k then some e else lookupCache key rest

/-- Property assignment `watchlistCache[key] = e` (observed through
`lookupCache`, the prepended binding shadows any older one). -/
def putCache {P : Type} (cache : WCache P) (key : String) (e : CacheEntry P) : WCache P :=
  (key, e) :: cache

/-- JS freshness test `now - cachedAt < 30000`, over `Int` like JS numbers. -/
def freshAt (now cachedAt : Nat) : Bool :=
  (now : Int) - (cachedAt : Int) < 30000

/-- Within one user's watchlist, coinId values are pairwise distinct. -/
def idsNodup (watchlist : List WatchlistItem) : Prop :=
  (watchlist.map (fun item => item.coinId)).Nodup

/-! ## The `GET /top` and `GET /coin/:id` handlers -/

/-- Response of the `GET /top` handler: `res.json(payload)` or
`res.status(s).json({error: msg})`. -/
inductive TopResp (P : Type) where
  | json (payload : P)
  | error (status : Nat) (msg : String)
deriving DecidableEq, Repr

/-- Result of one `GET /top` invocation: the response sent, the value of
`topCache` afterwards, and how many upstream calls were made. -/
structure TopResult (P : Type) where
  resp : TopResp P
  cache : TopCache P
  upstreamCalls : Nat
deriving DecidableEq, Repr

/-- The `GET /top` handler (src/routes/crypto.js lines 10–33).
`now` is `Date.now()` at the cache check, `now2` is `Date.now()` at the
store after a successful fetch; `upstream` is the axios call's outcome. -/
def getTop {P : Type} (cache : TopCache P) (now now2 : Nat) (upstream : Upstream P) :
    TopResult P :=
  match cache.data with
  | some d =>
    -- `if (topCache.data && (now - topCache.cachedAt) < 30000) return res.json(topCache.data)`
    if freshAt now cache.cachedAt then
      { resp := .json d, cache := cache, upstreamCalls := 0 }
    else
      match upstream with
      | .ok payload =>
        { resp := .json payload
          cache := { data := some payload, cachedAt := now2 }
          upstreamCalls := 1 }
      | .fail =>
        -- catch: `if (topCache.data) return res.json(topCache.data)`
        { resp := .json d, cache := cache, upstreamCalls := 1 }
  | none =>
    match upstream with
    | .ok payload =>
      { resp := .json payload
        cache := { data := some payload, cachedAt := now2 }
        upstreamCalls := 1 }
    | .fail =>
      { resp := .error 500 "Failed to fetch crypto data", cache := cache, upstreamCalls := 1 }

/-- The `GET /coin/:id` handler (src/routes/crypto.js lines 35–46): no cache,
straight pass-through of the upstream call, 500 on failure. -/
def getCoin {P : Type} (upstream : Upstream P) : TopResp P :=
  match upstream with
  | .ok payload => .json payload
  | .fail => .error 500 "Failed to fetch coin data"

/-! ## Watchlist mutation handlers (`POST /watchlist`, `DELETE /watchlist/:coinId`) -/

/-- Response of a mutation handler: `res.json({message, watchlist})` or
`res.status(s).json({error})`. -/
inductive MutResp where
  | ok (message : String) (watchlist : List WatchlistItem)
  | error (status : Nat) (msg : String)
deriving DecidableEq, Repr

/-- Result of one mutation-handler invocation.  `saveCalled` records whether
`user.save()` was reached; `persisted` is the list written back when the save
succeeded (`none` when no successful write-back happened, so the stored
watchlist is still the one `findById` returned). -/
structure MutResult where
  resp : MutResp
  saveCalled : Bool
  persisted : Option (List WatchlistItem)
deriving DecidableEq, Repr

/-- The `POST /watchlist` handler (src/routes/crypto.js lines 48–66).
`find` is the outcome of `User.findById` (`none` = it throws); `saveOk` is
whether `user.save()` succeeds.  Any throw is caught and answered
`500 {error: 'Server error'}`. -/
def postWatchlist (find : Option (List WatchlistItem)) (saveOk : Bool)
    (coinId coinName : String) : MutResult :=
  match find with
  | none => { resp := .error 500 "Server error", saveCalled := false, persisted := none }
  | some watchlist =>
    -- `const alreadyInWatchlist = user.watchlist.some(item => item.coinId === coinId)`
    let alreadyInWatchlist := watchlist.any (fun item => item.coinId == coinId)
    if alreadyInWatchlist then
      { resp := .error 400 "Coin already in watchlist", saveCalled := false, persisted := none }
    else
      -- `user.watchlist.push({ coinId, coinName }); await user.save()`
      let updated := watchlist ++ [{ coinId := coinId, coinName := coinName }]
      if saveOk then
        { resp := .ok "Added to watchlist" updated, saveCalled := true, persisted := some updated }
      else
        { resp := .error 500 "Server error", saveCalled := true, persisted := none }

/-- The `DELETE /watchlist/:coinId` handler (src/routes/crypto.js lines 68–80).
`user.watchlist = user.watchlist.filter(item => item.coinId !== coinId)`. -/
def deleteWatchlist (find : Option (List WatchlistItem)) (saveOk : Bool)
    (coinId : String) : MutResult :=
  match find with
  | none => { resp := .error 500 "Server error", saveCalled := false, persisted := none }
  | some watchlist =>
    let updated := watchlist.filter (fun item => item.coinId != coinId)
    if saveOk then
      { resp := .ok "Removed from watchlist" updated, saveCalled := true, persisted := some updated }
    else
      { resp := .error 500 "Server error", saveCalled := true, persisted := none }

/-! ## The `GET /watchlist` list handler -/

/-- The cache key: `[...watchlist.map(i => i.coinId)].sort().join(',')`
(src/routes/crypto.js lines 90–92 and, identically, line 111).  JS's default
`sort()` orders strings lexicographically; `insertionSort` with `String.le`
computes the same unique sorted permutation. -/
def watchKey (watchlist : List WatchlistItem) : String :=
  String.intercalate ","
    (List.insertionSort (fun a b : String => a ≤ b)
      (watchlist.map (fun item => item.coinId)))

/-- Response of the `GET /watchlist` handler.  `emptyArr` is the literal
`res.json([])` short-circuit; `escaped` marks the one path where a rejection
leaves the handler uncaught (a throw inside the `catch` block itself). -/
inductive ListResp (P : Type) where
  | json (payload : P)
  | emptyArr
  | error (status : Nat) (msg : String)
  | escaped
deriving DecidableEq, Repr

/-- Result of one `GET /watchlist` invocation, with effect counters for the
`watchlistCache[...]` reads and the upstream calls made. -/
structure ListResult (P : Type) where
  resp : ListResp P
  cache : WCache P
  upstreamCalls : Nat
  cacheLookups : Nat
deriving DecidableEq, Repr

/-- The `catch` block of the list handler (src/routes/crypto.js lines
108–119): it re-reads the user (`find2`; a throw here is NOT caught by
anything and escapes), recomputes the key from that re-read, and serves any
entry under it regardless of age, else 500. -/
def listCatch {P : Type} (find2 : Option (List WatchlistItem)) (cache : WCache P)
    (upstreamCalls cacheLookups : Nat) : ListResult P :=
  match find2 with
  | none =>
    { resp := .escaped, cache := cache, upstreamCalls := upstreamCalls,
      cacheLookups := cacheLookups }
  | some user =>
    let coinIdsKey := watchKey user
    match lookupCache coinIdsKey cache with
    | some stale =>
      { resp := .json stale.data, cache := cache, upstreamCalls := upstreamCalls,
        cacheLookups := cacheLookups + 1 }
    | none =>
      { resp := .error 500 "Failed to fetch watchlist data", cache := cache,
        upstreamCalls := upstreamCalls, cacheLookups := cacheLookups + 1 }

/-- The `GET /watchlist` handler (src/routes/crypto.js lines 82–120).
`find1` / `find2` are the outcomes of the two `User.findById` calls (`none` =
that call throws); any throw in the `try` body lands in `listCatch`. -/
def getWatchlist {P : Type} (find1 find2 : Option (List WatchlistItem)) (cache : WCache P)
    (now now2 : Nat) (upstream : Upstream P) : ListResult P :=
  match find1 with
  | none => listCatch find2 cache 0 0
  | some user =>
    -- `if (user.watchlist.length === 0) return res.json([])`
    if user.length = 0 then
      { resp := .emptyArr, cache := cache, upstreamCalls := 0, cacheLookups := 0 }
    else
      let coinIds := watchKey user
      match lookupCache coinIds cache with
      | some cached =>
        if freshAt now cached.cachedAt then
          { resp := .json cached.data, cache := cache, upstreamCalls := 0, cacheLookups := 1 }
        else
          match upstream with
          | .ok payload =>
            { resp := .json payload, cache := putCache cache coinIds ⟨payload, now2⟩,
              upstreamCalls := 1, cacheLookups := 1 }
          | .fail => listCatch find2 cache 1 1
      | none =>
        match upstream with
        | .ok payload =>
          { resp := .json payload, cache := putCache cache coinIds ⟨payload, now2⟩,
            upstreamCalls := 1, cacheLookups := 1 }
        | .fail => listCatch find2 cache 1 1

/-- Whether the list handler produced an HTTP response at the boundary
(`true`) or let the fault escape uncaught (`false`). -/
def respondsAtBoundary {P : Type} (r : ListResp P) : Bool :=
  match r with
  | .escaped => false
  | _ => true

/-- The conditions under which the list handler's `catch` block runs: the
first `User.findById` threw, or the watchlist was non-empty, no fresh cache
entry was available, and the upstream fetch failed. -/
def reachesCatch {P : Type} (find1 : Option (List WatchlistItem)) (cache : WCache P)
    (now : Nat) (upstream : Upstream P) : Bool :=
  match find1 with
  | none => true
  | some user =>
    if user.length = 0 then false
    else
      match lookupCache (watchKey user) cache with
      | some cached =>
        if freshAt now cached.cachedAt then false
        else
          match upstream with
          | .ok _ => false
          | .fail => true
      | none =>
        match upstream with
        | .ok _ => false
        | .fail => true

/-! ## Helper lemmas -/

/-- Sorting is invariant under permutation of the input (for the antisymmetric
total order on strings the sorted permutation is unique). -/
theorem insertionSort_perm_congr {l1 l2 : List String} (h : l1.Perm l2) :
    List.insertionSort (fun a b : String => a ≤ b) l1 =
    List.insertionSort (fun a b : String => a ≤ b) l2 :=
  List.eq_of_perm_of_sorted
    ((List.perm_insertionSort _ l1).trans (h.trans (List.perm_insertionSort _ l2).symm))
    (List.sorted_insertionSort _ l1) (List.sorted_insertionSort _ l2)

/-- Two watchlists naming the same multiset of coinIds derive the same key. -/
theorem watchKey_perm {w1 w2 : List WatchlistItem}
    (h : (w1.map (fun item => item.coinId)).Perm (w2.map (fun item => item.coinId))) :
    watchKey w1 = watchKey w2 := by
  unfold watchKey
  rw [insertionSort_perm_congr h]

/-- Inside the catch block, escape happens exactly when the re-read throws. -/
theorem listCatch_escape_iff {P : Type} (find2 : Option (List WatchlistItem))
    (cache : WCache P) (a b : Nat) :
    respondsAtBoundary ((listCatch find2 cache a b).resp) = false ↔ find2 = none := by
  cases find2 with
  | none => simp [listCatch, respondsAtBoundary]
  | some u =>
    cases h : lookupCache (watchKey u) cache <;>
      simp [listCatch, h, respondsAtBoundary]

/-! ## Claims -/

/-- C1 -- Cache discipline of the `GET /top` handler: a present, fresh entry is
served as-is with no upstream call and an unchanged cache; otherwise exactly
one upstream call is made and, on success, the entry is replaced wholesale
(`cachedAt` set to the store-time clock reading) and the new payload
returned. -/
theorem C1_top_cache_discipline {P : Type} (cache : TopCache P) (now now2 : Nat)
    (upstream : Upstream P) :
    (∀ d, cache.data = some d → freshAt now cache.cachedAt = true →
      getTop cache now now2 upstream =
        { resp := .json d, cache := cache, upstreamCalls := 0 }) ∧
    ((cache.data = none ∨ freshAt now cache.cachedAt = false) →
      (getTop cache now now2 upstream).upstreamCalls = 1 ∧
      ∀ p, upstream = .ok p →
        getTop cache now now2 upstream =
          { resp := .json p, cache := { data := some p, cachedAt := now2 }, upstreamCalls := 1 }) := by
  constructor
  · intro d hd hf
    simp [getTop, hd, hf]
  · intro hmiss
    rcases hmiss with hnone | hstale
    · cases upstream with
      | ok p => simp [getTop, hnone]
      | fail => simp [getTop, hnone]
    · cases hcd : cache.data with
      | none =>
        cases upstream with
        | ok p => simp [getTop, hcd]
        | fail => simp [getTop, hcd]
      | some d =>
        cases upstream with
        | ok p => simp [getTop, hcd, hstale]
        | fail => simp [getTop, hcd, hstale]

/-- Witness for C1 at concrete inputs. -/
theorem C1_top_cache_discipline_witness :
    (∀ d, (TopCache.mk (some 7) 100 : TopCache Nat).data = some d →
      freshAt 200 (TopCache.mk (some 7) 100 : TopCache Nat).cachedAt = true →
      getTop (TopCache.mk (some 7) 100) 200 300 (Upstream.ok 9) =
        { resp := .json d, cache := TopCache.mk (some 7) 100, upstreamCalls := 0 }) ∧
    (((TopCache.mk (some 7) 100 : TopCache Nat).data = none ∨
        freshAt 200 (TopCache.mk (some 7) 100 : TopCache Nat).cachedAt = false) →
      (getTop (TopCache.mk (some 7) 100) 200 300 (Upstream.ok 9)).upstreamCalls = 1 ∧
      ∀ p, Upstream.ok 9 = Upstream.ok p →
        getTop (TopCache.mk (some 7) 100) 200 300 (Upstream.ok 9) =
          { resp := .json p, cache := { data := some p, cachedAt := 300 }, upstreamCalls := 1 }) :=
  C1_top_cache_discipline (TopCache.mk (some 7) 100) 200 300 (Upstream.ok 9)

/-- C2 -- `GET /top` on upstream failure: any stored payload (however stale) is
served; with an empty cache the handler answers 500 with the fixed message
and fabricates nothing. -/
theorem C2_top_stale_fallback {P : Type} (cache : TopCache P) (now now2 : Nat) :
    (∀ d, cache.data = some d →
      (getTop cache now now2 .fail).resp = .json d ∧
      (getTop cache now now2 .fail).cache = cache) ∧
    (cache.data = none →
      getTop cache now now2 .fail =
        { resp := .error 500 "Failed to fetch crypto data", cache := cache, upstreamCalls := 1 }) := by
  constructor
  · intro d hd
    cases hf : freshAt now cache.cachedAt <;> simp [getTop, hd, hf]
  · intro hnone
    simp [getTop, hnone]

/-- Witness for C2 at concrete inputs (a very stale entry, and a cold cache). -/
theorem C2_top_stale_fallback_witness :
    ((∀ d, (TopCache.mk (some 5) 0 : TopCache Nat).data = some d →
      (getTop (TopCache.mk (some 5) 0) 999999 0 .fail).resp = .json d ∧
      (getTop (TopCache.mk (some 5) 0) 999999 0 .fail).cache = TopCache.mk (some 5) 0) ∧
    ((TopCache.mk (some 5) 0 : TopCache Nat).data = none →
      getTop (TopCache.mk (some 5) 0) 999999 0 .fail =
        { resp := .error 500 "Failed to fetch crypto data", cache := TopCache.mk (some 5) 0,
          upstreamCalls := 1 })) ∧
    ((∀ d, (TopCache.mk (none : Option Nat) 0 : TopCache Nat).data = some d →
      (getTop (TopCache.mk (none : Option Nat) 0) 3 0 .fail).resp = .json d ∧
      (getTop (TopCache.mk (none : Option Nat) 0) 3 0 .fail).cache = TopCache.mk (none : Option Nat) 0) ∧
    ((TopCache.mk (none : Option Nat) 0 : TopCache Nat).data = none →
      getTop (TopCache.mk (none : Option Nat) 0) 3 0 .fail =
        { resp := .error 500 "Failed to fetch crypto data", cache := TopCache.mk (none : Option Nat) 0,
          upstreamCalls := 1 })) :=
  ⟨C2_top_stale_fallback (TopCache.mk (some 5) 0) 999999 0,
   C2_top_stale_fallback (TopCache.mk (none : Option Nat) 0) 3 0⟩

/-- C4 -- Add: when the loaded watchlist already holds the coinId, the handler
answers 400 with the duplicate message (not 500), never reaches `save()`, and
writes nothing back, so the stored list (and its length) is unchanged;
otherwise (with a working save) it appends the item, persists the updated
list and returns it in full. -/
theorem C4_add_duplicate_rejected (watchlist : List WatchlistItem) (saveOk : Bool)
    (coinId coinName : String) :
    ((∃ item ∈ watchlist, item.coinId = coinId) →
      postWatchlist (some watchlist) saveOk coinId coinName =
        { resp := .error 400 "Coin already in watchlist", saveCalled := false,
          persisted := none }) ∧
    ((∀ item ∈ watchlist, item.coinId ≠ coinId) → saveOk = true →
      postWatchlist (some watchlist) saveOk coinId coinName =
        { resp := .ok "Added to watchlist"
            (watchlist ++ [{ coinId := coinId, coinName := coinName }]),
          saveCalled := true,
          persisted := some (watchlist ++ [{ coinId := coinId, coinName := coinName }]) }) := by
  constructor
  · rintro ⟨item, hmem, hid⟩
    have hany : watchlist.any (fun item => item.coinId == coinId) = true :=
      List.any_eq_true.mpr ⟨item, hmem, by simp [hid]⟩
    simp [postWatchlist, hany]
  · intro habs hsave
    have hany : watchlist.any (fun item => item.coinId == coinId) = false := by
      simp only [List.any_eq_false]
      intro item hmem
      simpa using habs item hmem
    simp [postWatchlist, hany, hsave]

/-- Witness for C4: the "dedup" scenario of the spec, adding bitcoin twice. -/
theorem C4_add_duplicate_rejected_witness :
    ((∃ item ∈ [WatchlistItem.mk "bitcoin" "Bitcoin"], item.coinId = "bitcoin") →
      postWatchlist (some [WatchlistItem.mk "bitcoin" "Bitcoin"]) true "bitcoin" "Bitcoin" =
        { resp := .error 400 "Coin already in watchlist", saveCalled := false,
          persisted := none }) ∧
    ((∀ item ∈ [WatchlistItem.mk "bitcoin" "Bitcoin"], item.coinId ≠ "bitcoin") → true = true →
      postWatchlist (some [WatchlistItem.mk "bitcoin" "Bitcoin"]) true "bitcoin" "Bitcoin" =
        { resp := .ok "Added to watchlist"
            ([WatchlistItem.mk "bitcoin" "Bitcoin"] ++
              [{ coinId := "bitcoin", coinName := "Bitcoin" }]),
          saveCalled := true,
          persisted := some ([WatchlistItem.mk "bitcoin" "Bitcoin"] ++
              [{ coinId := "bitcoin", coinName := "Bitcoin" }]) }) :=
  C4_add_duplicate_rejected [WatchlistItem.mk "bitcoin" "Bitcoin"] true "bitcoin" "Bitcoin"

/-- C5 -- Remove is idempotent: removing a coinId absent from the loaded
watchlist succeeds (200, not an error) and both persists and returns that
watchlist unchanged. -/
theorem C5_remove_idempotent (watchlist : List WatchlistItem) (coinId : String)
    (habs : ∀ item ∈ watchlist, item.coinId ≠ coinId) :
    deleteWatchlist (some watchlist) true coinId =
      { resp := .ok "Removed from watchlist" watchlist, saveCalled := true,
        persisted := some watchlist } := by
  have hfilter : watchlist.filter (fun item => item.coinId != coinId) = watchlist := by
    apply List.filter_eq_self.mpr
    intro item hmem
    simpa using habs item hmem
  simp [deleteWatchlist, hfilter]

/-- Witness for C5: removing "dogecoin" from a watchlist that lacks it. -/
theorem C5_remove_idempotent_witness :
    deleteWatchlist (some [WatchlistItem.mk "bitcoin" "Bitcoin"]) true "dogecoin" =
      { resp := .ok "Removed from watchlist" [WatchlistItem.mk "bitcoin" "Bitcoin"],
        saveCalled := true,
        persisted := some [WatchlistItem.mk "bitcoin" "Bitcoin"] } :=
  C5_remove_idempotent [WatchlistItem.mk "bitcoin" "Bitcoin"] "dogecoin" (by decide)

/-- C9 -- Uniqueness invariant: from a watchlist with pairwise-distinct coinIds,
whatever list the add handler or the remove handler writes back still has
pairwise-distinct coinIds; neither operation introduces a duplicate. -/
theorem C9_uniqueness_invariant (watchlist : List WatchlistItem) (saveOk : Bool)
    (coinId coinName : String) (hnodup : idsNodup watchlist) :
    (∀ l, (postWatchlist (some watchlist) saveOk coinId coinName).persisted = some l →
      idsNodup l) ∧
    (∀ l, (deleteWatchlist (some watchlist) saveOk coinId).persisted = some l →
      idsNodup l) := by
  constructor
  · intro l hl
    cases hany : watchlist.any (fun item => item.coinId == coinId) with
    | true => simp [postWatchlist, hany] at hl
    | false =>
      cases saveOk with
      | false => simp [postWatchlist, hany] at hl
      | true =>
        simp only [postWatchlist, hany, Bool.false_eq_true, if_false, if_true] at hl
        cases hl
        have hnotmem : coinId ∉ watchlist.map (fun item => item.coinId) := by
          intro hmem
          rcases List.mem_map.mp hmem with ⟨item, hitem, hid⟩
          have := List.any_eq_false.mp hany item hitem
          simp [hid] at this
        unfold idsNodup
        rw [List.map_append]
        simp [List.nodup_append, hnodup, hnotmem]
        exact hnodup
  · intro l hl
    cases saveOk with
    | false => simp [deleteWatchlist] at hl
    | true =>
      simp only [deleteWatchlist, if_true] at hl
      cases hl
      unfold idsNodup
      exact ((List.filter_sublist watchlist).map _).nodup hnodup

/-- Witness for C9: a one-coin watchlist, adding a distinct coin and removing
an absent one. -/
theorem C9_uniqueness_invariant_witness :
    (∀ l, (postWatchlist (some [WatchlistItem.mk "btc" "Bitcoin"]) true "eth" "Ethereum").persisted
        = some l → idsNodup l) ∧
    (∀ l, (deleteWatchlist (some [WatchlistItem.mk "btc" "Bitcoin"]) true "eth").persisted
        = some l → idsNodup l) :=
  C9_uniqueness_invariant [WatchlistItem.mk "btc" "Bitcoin"] true "eth" "Ethereum"
    (by unfold idsNodup; decide)

/-- C10 -- Remove deletes every matching item (not only the first), keeps the
relative order of the rest (the written-back list is a sublist of the loaded
one), preserves each non-matching item's multiplicity, and so restores
coinId-uniqueness from any state whose only duplicates are the removed id. -/
theorem C10_remove_all_order_preserving (watchlist : List WatchlistItem) (coinId : String) :
    ∀ r, (deleteWatchlist (some watchlist) true coinId).persisted = some r →
      r.Sublist watchlist ∧
      (∀ item ∈ r, item.coinId ≠ coinId) ∧
      (∀ item : WatchlistItem, item.coinId ≠ coinId → r.count item = watchlist.count item) ∧
      (((watchlist.map (fun item => item.coinId)).filter (fun s => s != coinId)).Nodup →
        idsNodup r) := by
  intro r hr
  simp only [deleteWatchlist, if_true] at hr
  cases hr
  refine ⟨List.filter_sublist watchlist, ?_, ?_, ?_⟩
  · intro item hmem
    have := (List.mem_filter.mp hmem).2
    simpa using this
  · intro item hid
    exact List.count_filter (by simpa using hid)
  · intro hnd
    unfold idsNodup
    have hmf : (watchlist.filter (fun item => item.coinId != coinId)).map
          (fun item => item.coinId)
        = (watchlist.map (fun item => item.coinId)).filter (fun s => s != coinId) := by
      rw [List.filter_map]
      rfl
    rw [hmf]
    exact hnd

/-- Witness for C10: a watchlist holding "btc" twice around an "eth" entry;
removing "btc" deletes both copies and keeps "eth". -/
theorem C10_remove_all_order_preserving_witness :
    List.Sublist [WatchlistItem.mk "eth" "Ethereum"]
        [WatchlistItem.mk "btc" "Bitcoin", WatchlistItem.mk "eth" "Ethereum",
         WatchlistItem.mk "btc" "BTC"] ∧
    (∀ item ∈ [WatchlistItem.mk "eth" "Ethereum"], item.coinId ≠ "btc") ∧
    (∀ item : WatchlistItem, item.coinId ≠ "btc" →
      List.count item [WatchlistItem.mk "eth" "Ethereum"] = List.count item
          [WatchlistItem.mk "btc" "Bitcoin", WatchlistItem.mk "eth" "Ethereum",
           WatchlistItem.mk "btc" "BTC"]) ∧
    ((([WatchlistItem.mk "btc" "Bitcoin", WatchlistItem.mk "eth" "Ethereum",
        WatchlistItem.mk "btc" "BTC"].map (fun item => item.coinId)).filter
          (fun s => s != "btc")).Nodup →
      idsNodup [WatchlistItem.mk "eth" "Ethereum"]) :=
  C10_remove_all_order_preserving
    [WatchlistItem.mk "btc" "Bitcoin", WatchlistItem.mk "eth" "Ethereum",
     WatchlistItem.mk "btc" "BTC"] "btc" [WatchlistItem.mk "eth" "Ethereum"] rfl

/-- C6 -- A user with an empty watchlist gets the literal empty array back
immediately: no cache lookup, no upstream call, cache untouched; and that
response is a success shape, not an error shape. -/
theorem C6_empty_watchlist_short_circuit {P : Type} (find2 : Option (List WatchlistItem))
    (cache : WCache P) (now now2 : Nat) (upstream : Upstream P) :
    getWatchlist (some []) find2 cache now now2 upstream =
      { resp := .emptyArr, cache := cache, upstreamCalls := 0, cacheLookups := 0 } ∧
    ∀ s m, (ListResp.emptyArr : ListResp P) ≠ ListResp.error s m := by
  constructor
  · simp [getWatchlist]
  · intro s m h
    cases h

/-- Witness for C6 at concrete inputs (a failing upstream, to show it is never
consulted). -/
theorem C6_empty_watchlist_short_circuit_witness :
    getWatchlist (P := Nat) (some []) none [("btc", CacheEntry.mk 3 0)] 50 60 .fail =
      { resp := .emptyArr, cache := [("btc", CacheEntry.mk 3 0)], upstreamCalls := 0,
        cacheLookups := 0 } ∧
    ∀ s m, (ListResp.emptyArr : ListResp Nat) ≠ ListResp.error s m :=
  C6_empty_watchlist_short_circuit none [("btc", CacheEntry.mk 3 0)] 50 60 .fail

/-- C3 -- The set-fetch cache key is the sorted, comma-joined coinIds, so
watchlists naming the same multiset of ids in any order derive the same key;
populating the cache through one ordering makes a fresh fetch through the
other ordering a pure cache hit (no upstream call, cache unchanged). -/
theorem C3_cache_key_order_independent {P : Type} (w1 w2 : List WatchlistItem)
    (f2a f2b : Option (List WatchlistItem)) (cache : WCache P)
    (t1 t1' t2 t2' : Nat) (p : P) (u2 : Upstream P)
    (hperm : (w1.map (fun item => item.coinId)).Perm (w2.map (fun item => item.coinId)))
    (hne : w1 ≠ [])
    (hmiss : lookupCache (watchKey w1) cache = none)
    (hfresh : freshAt t2 t1' = true) :
    watchKey w1 = watchKey w2 ∧
    (getWatchlist (some w1) f2a cache t1 t1' (.ok p)).upstreamCalls = 1 ∧
    getWatchlist (some w2) f2b (getWatchlist (some w1) f2a cache t1 t1' (.ok p)).cache
        t2 t2' u2 =
      { resp := .json p,
        cache := (getWatchlist (some w1) f2a cache t1 t1' (.ok p)).cache,
        upstreamCalls := 0, cacheLookups := 1 } := by
  have hkey : watchKey w1 = watchKey w2 := watchKey_perm hperm
  have hlen1 : ¬ (w1.length = 0) := by simpa [List.length_eq_zero] using hne
  have hlen2 : ¬ (w2.length = 0) := by
    have hl := hperm.length_eq
    simp only [List.length_map] at hl
    omega
  have hrun1 : getWatchlist (some w1) f2a cache t1 t1' (.ok p) =
      { resp := .json p, cache := putCache cache (watchKey w1) ⟨p, t1'⟩,
        upstreamCalls := 1, cacheLookups := 1 } := by
    simp [getWatchlist, hlen1, hmiss]
  refine ⟨hkey, ?_, ?_⟩
  · rw [hrun1]
  · rw [hrun1]
    have hlook : lookupCache (watchKey w2) (putCache cache (watchKey w1) ⟨p, t1'⟩) =
        some ⟨p, t1'⟩ := by
      simp [putCache, lookupCache, hkey]
    simp [getWatchlist, hlen2, hlook, hfresh]

/-- Witness for C3: the spec's scenario, `["eth","btc"]` versus
`["btc","eth"]`, a cold cache, and a failing upstream on the second fetch. -/
theorem C3_cache_key_order_independent_witness :
    watchKey [WatchlistItem.mk "eth" "Ethereum", WatchlistItem.mk "btc" "Bitcoin"] =
      watchKey [WatchlistItem.mk "btc" "Bitcoin", WatchlistItem.mk "eth" "Ethereum"] ∧
    (getWatchlist (P := Nat)
        (some [WatchlistItem.mk "eth" "Ethereum", WatchlistItem.mk "btc" "Bitcoin"])
        none [] 0 10 (.ok 42)).upstreamCalls = 1 ∧
    getWatchlist
        (some [WatchlistItem.mk "btc" "Bitcoin", WatchlistItem.mk "eth" "Ethereum"])
        none
        (getWatchlist (P := Nat)
          (some [WatchlistItem.mk "eth" "Ethereum", WatchlistItem.mk "btc" "Bitcoin"])
          none [] 0 10 (.ok 42)).cache
        20 30 .fail =
      { resp := .json 42,
        cache := (getWatchlist (P := Nat)
          (some [WatchlistItem.mk "eth" "Ethereum", WatchlistItem.mk "btc" "Bitcoin"])
          none [] 0 10 (.ok 42)).cache,
        upstreamCalls := 0, cacheLookups := 1 } :=
  C3_cache_key_order_independent
    [WatchlistItem.mk "eth" "Ethereum", WatchlistItem.mk "btc" "Bitcoin"]
    [WatchlistItem.mk "btc" "Bitcoin", WatchlistItem.mk "eth" "Ethereum"]
    none none [] 0 10 20 30 42 .fail
    (by decide) (by decide) rfl (by decide)

/-- C7 -- List-endpoint fallback: when the enrichment call fails (and a fresh
hit on the first key was not available), the handler re-reads the watchlist,
recomputes the sorted-id key from that re-read, and serves whatever entry sits
under it with no freshness check; if none is stored it answers 500 with the
fixed message.  Either way the response carries a cached payload or an error,
never the raw watchlist items. -/
theorem C7_list_stale_fallback {P : Type} (w w2 : List WatchlistItem) (cache : WCache P)
    (now now2 : Nat)
    (hne : w ≠ [])
    (hnofresh : ∀ e, lookupCache (watchKey w) cache = some e →
      freshAt now e.cachedAt = false) :
    (∀ e, lookupCache (watchKey w2) cache = some e →
      getWatchlist (some w) (some w2) cache now now2 .fail =
        { resp := .json e.data, cache := cache, upstreamCalls := 1, cacheLookups := 2 }) ∧
    (lookupCache (watchKey w2) cache = none →
      getWatchlist (some w) (some w2) cache now now2 .fail =
        { resp := .error 500 "Failed to fetch watchlist data", cache := cache,
          upstreamCalls := 1, cacheLookups := 2 }) := by
  have hlen : ¬ (w.length = 0) := by simpa [List.length_eq_zero] using hne
  constructor
  · intro e he
    cases hl1 : lookupCache (watchKey w) cache with
    | none => simp [getWatchlist, hlen, hl1, listCatch, he]
    | some e1 =>
      have hnf := hnofresh e1 hl1
      simp [getWatchlist, hlen, hl1, hnf, listCatch, he]
  · intro hnone2
    cases hl1 : lookupCache (watchKey w) cache with
    | none => simp [getWatchlist, hlen, hl1, listCatch, hnone2]
    | some e1 =>
      have hnf := hnofresh e1 hl1
      simp [getWatchlist, hlen, hl1, hnf, listCatch, hnone2]

/-- Witness for C7: a one-coin watchlist whose cached entry is far past the
TTL; the failing fetch falls back to that stale entry. -/
theorem C7_list_stale_fallback_witness :
    (∀ e, lookupCache (watchKey [WatchlistItem.mk "btc" "Bitcoin"])
        [(watchKey [WatchlistItem.mk "btc" "Bitcoin"], CacheEntry.mk (99 : Nat) 0)] = some e →
      getWatchlist (some [WatchlistItem.mk "btc" "Bitcoin"])
          (some [WatchlistItem.mk "btc" "Bitcoin"])
          [(watchKey [WatchlistItem.mk "btc" "Bitcoin"], CacheEntry.mk (99 : Nat) 0)]
          1000000 1000001 .fail =
        { resp := .json e.data,
          cache := [(watchKey [WatchlistItem.mk "btc" "Bitcoin"], CacheEntry.mk (99 : Nat) 0)],
          upstreamCalls := 1, cacheLookups := 2 }) ∧
    (lookupCache (watchKey [WatchlistItem.mk "btc" "Bitcoin"])
        [(watchKey [WatchlistItem.mk "btc" "Bitcoin"], CacheEntry.mk (99 : Nat) 0)] = none →
      getWatchlist (some [WatchlistItem.mk "btc" "Bitcoin"])
          (some [WatchlistItem.mk "btc" "Bitcoin"])
          [(watchKey [WatchlistItem.mk "btc" "Bitcoin"], CacheEntry.mk (99 : Nat) 0)]
          1000000 1000001 .fail =
        { resp := .error 500 "Failed to fetch watchlist data",
          cache := [(watchKey [WatchlistItem.mk "btc" "Bitcoin"], CacheEntry.mk (99 : Nat) 0)],
          upstreamCalls := 1, cacheLookups := 2 }) :=
  C7_list_stale_fallback [WatchlistItem.mk "btc" "Bitcoin"] [WatchlistItem.mk "btc" "Bitcoin"]
    [(watchKey [WatchlistItem.mk "btc" "Bitcoin"], CacheEntry.mk (99 : Nat) 0)]
    1000000 1000001 (by decide)
    (by
      intro e he
      simp [lookupCache] at he
      cases he
      decide)

/-- C8, counterexample -- the claim "no execution path lets a fault escape the
handler unhandled" fails: with a one-coin watchlist, an empty cache, a failing
upstream and a persistence re-read that throws inside the catch block, the
list handler sends no response at all — the rejection escapes. -/
theorem C8_counterexample_catch_block_escape :
    respondsAtBoundary
      ((getWatchlist (P := Nat) (some [WatchlistItem.mk "bitcoin" "Bitcoin"]) none []
        0 0 .fail).resp) = false := by
  decide

/-- C8, amended -- every fault combination is translated to a 200/400/500
response at the handler boundary, with one exception: in the list handler the
fault escapes exactly when the catch block runs and its own `User.findById`
re-read throws.  The top handler, the coin-detail handler and both mutation
handlers always respond. -/
theorem C8_amended_fault_boundary {P : Type} (tcache : TopCache P)
    (find find1 find2 : Option (List WatchlistItem)) (saveOk : Bool)
    (coinId coinName : String) (cache : WCache P) (now now2 : Nat)
    (upstream : Upstream P) :
    ((∃ p, (getTop tcache now now2 upstream).resp = .json p) ∨
      (getTop tcache now now2 upstream).resp = .error 500 "Failed to fetch crypto data") ∧
    ((∃ p, getCoin upstream = .json p) ∨
      getCoin upstream = .error 500 "Failed to fetch coin data") ∧
    ((∃ l, (postWatchlist find saveOk coinId coinName).resp = .ok "Added to watchlist" l) ∨
      (postWatchlist find saveOk coinId coinName).resp = .error 400 "Coin already in watchlist" ∨
      (postWatchlist find saveOk coinId coinName).resp = .error 500 "Server error") ∧
    ((∃ l, (deleteWatchlist find saveOk coinId).resp = .ok "Removed from watchlist" l) ∨
      (deleteWatchlist find saveOk coinId).resp = .error 500 "Server error") ∧
    (respondsAtBoundary ((getWatchlist find1 find2 cache now now2 upstream).resp) = false ↔
      (reachesCatch find1 cache now upstream = true ∧ find2 = none)) := by
  refine ⟨?_, ?_, ?_, ?_, ?_⟩
  · cases hcd : tcache.data with
    | none =>
      cases upstream with
      | ok p => exact Or.inl ⟨p, by simp [getTop, hcd]⟩
      | fail => exact Or.inr (by simp [getTop, hcd])
    | some d =>
      cases hf : freshAt now tcache.cachedAt with
      | true => exact Or.inl ⟨d, by simp [getTop, hcd, hf]⟩
      | false =>
        cases upstream with
        | ok p => exact Or.inl ⟨p, by simp [getTop, hcd, hf]⟩
        | fail => exact Or.inl ⟨d, by simp [getTop, hcd, hf]⟩
  · cases upstream with
    | ok p => exact Or.inl ⟨p, rfl⟩
    | fail => exact Or.inr rfl
  · cases find with
    | none => exact Or.inr (Or.inr (by simp [postWatchlist]))
    | some w =>
      cases hany : w.any (fun item => item.coinId == coinId) with
      | true => exact Or.inr (Or.inl (by simp [postWatchlist, hany]))
      | false =>
        cases saveOk with
        | true =>
          exact Or.inl ⟨w ++ [{ coinId := coinId, coinName := coinName }],
            by simp [postWatchlist, hany]⟩
        | false => exact Or.inr (Or.inr (by simp [postWatchlist, hany]))
  · cases find with
    | none => exact Or.inr (by simp [deleteWatchlist])
    | some w =>
      cases saveOk with
      | true =>
        exact Or.inl ⟨w.filter (fun item => item.coinId != coinId),
          by simp [deleteWatchlist]⟩
      | false => exact Or.inr (by simp [deleteWatchlist])
  · cases find1 with
    | none =>
      simpa [getWatchlist, reachesCatch] using listCatch_escape_iff find2 cache 0 0
    | some user =>
      cases hlen : user.length with
      | zero =>
        simp [getWatchlist, reachesCatch, hlen, respondsAtBoundary]
      | succ n =>
        cases hl : lookupCache (watchKey user) cache with
        | some cached =>
          cases hf : freshAt now cached.cachedAt with
          | true =>
            simp [getWatchlist, reachesCatch, hlen, hl, hf, respondsAtBoundary]
          | false =>
            cases upstream with
            | ok p =>
              simp [getWatchlist, reachesCatch, hlen, hl, hf, respondsAtBoundary]
            | fail =>
              simpa [getWatchlist, reachesCatch, hlen, hl, hf]
                using listCatch_escape_iff find2 cache 1 1
        | none =>
          cases upstream with
          | ok p =>
            simp [getWatchlist, reachesCatch, hlen, hl, respondsAtBoundary]
          | fail =>
            simpa [getWatchlist, reachesCatch, hlen, hl]
              using listCatch_escape_iff find2 cache 1 1

/-- Witness for C8 (amended) at concrete inputs: the same scenario as the
counterexample, where the right-hand side of the iff is satisfied. -/
theorem C8_amended_fault_boundary_witness :
    ((∃ p, (getTop (TopCache.mk (some 1) 0 : TopCache Nat) 5 6 .fail).resp = .json p) ∨
      (getTop (TopCache.mk (some 1) 0 : TopCache Nat) 5 6 .fail).resp =
        .error 500 "Failed to fetch crypto data") ∧
    ((∃ p, getCoin (Upstream.fail : Upstream Nat) = .json p) ∨
      getCoin (Upstream.fail : Upstream Nat) = .error 500 "Failed to fetch coin data") ∧
    ((∃ l, (postWatchlist (some []) true "btc" "Bitcoin").resp = .ok "Added to watchlist" l) ∨
      (postWatchlist (some []) true "btc" "Bitcoin").resp =
        .error 400 "Coin already in watchlist" ∨
      (postWatchlist (some []) true "btc" "Bitcoin").resp = .error 500 "Server error") ∧
    ((∃ l, (deleteWatchlist (some []) true "btc").resp = .ok "Removed from watchlist" l) ∨
      (deleteWatchlist (some []) true "btc").resp = .error 500 "Server error") ∧
    (respondsAtBoundary
        ((getWatchlist (P := Nat) (some [WatchlistItem.mk "bitcoin" "Bitcoin"]) none []
          5 6 .fail).resp) = false ↔
      (reachesCatch (P := Nat) (some [WatchlistItem.mk "bitcoin" "Bitcoin"]) [] 5 .fail = true ∧
        (none : Option (List WatchlistItem)) = none)) :=
  C8_amended_fault_boundary (TopCache.mk (some 1) 0) (some [])
    (some [WatchlistItem.mk "bitcoin" "Bitcoin"]) none true "btc" "Bitcoin" [] 5 6 .fail
